import Mathlib

/-!
# Shallow embedding of the Benkhawiya cosmic reasoning engine

This file embeds `app/core/cosmic_engine.py` and the golden-ratio endpoint of
`app/main.py` and proves the specification claims about them.

Modelling conventions:

* Python `float` values are modelled exactly as dyadic rationals
  (`Dy`: an integer significand times a power of two).  Every float literal
  and every float operation of the program goes through `ratRound`, a
  round-to-nearest-ties-to-even rounding to a 53-bit significand, i.e. the
  IEEE-754 double-precision arithmetic the CPython interpreter performs
  (exponent-range overflow is not modelled; all values in this program are
  normal and far from the range limits).  So, e.g., the literal `0.85` is the
  rational `7656119366529843 / 2^53`, and the mean computed in
  `_synthesize_decision` is the value the interpreter actually produces.
* The golden-ratio power `self.phi ** n` is modelled exactly in the
  quadratic field ℚ[√5] (`Qsqrt5`), i.e. with exact-real semantics of the
  float computation.
* Python dicts that the program iterates over are modelled as association
  lists in insertion order (CPython dicts preserve insertion order).
* The Python string type is modelled by the Lean `String`; the slice of the
  first n characters is `String.take`
  (both slice by code point), upper-casing maps `Char.toUpper` over the
  characters (all the strings it is applied to are ASCII), and the f-string
  interpolation of a list of strings is `pyStrList`.
* `pydantic` construction of `CouncilPerspective` validates
  `Field(ge=0, le=1)` on `coherence_score`; this is modelled by the fallible
  constructor `CouncilPerspective.mk?` returning an `Option`.
* `async` functions contain no awaits except `asyncio.gather`, which runs
  independent pure computations and returns their results in task order; the
  embedding is the corresponding pure function.
-/

namespace Benkhawiya

/-! ## Exact model of IEEE-754 double arithmetic -/

/-- Fuel-driven binary-digit counter (structural recursion so that the kernel
can evaluate it). -/
def bitsAux : Nat → Nat → Nat
  | 0, _ => 0
  | fuel+1, n => if n = 0 then 0 else bitsAux fuel (n / 2) + 1

/-- Number of binary digits of a natural number (`0` for `0`). -/
def bits (n : Nat) : Nat := bitsAux n n

/-- A dyadic rational `num * 2 ^ exp`: the exact value of an IEEE-754 double.
Results of `ratRound` carry a 53-bit significand. -/
structure Dy where
  num : Int
  exp : Int
deriving DecidableEq, Repr

/-- The rational value of a dyadic number. -/
def Dy.toRat (x : Dy) : ℚ := x.num * (2 : ℚ) ^ x.exp

/-- Does `q * 2^k ≤ p` hold, for a possibly negative exponent `k`? -/
def le2pow (k : Int) (q p : Nat) : Bool :=
  if 0 ≤ k then q * 2 ^ k.toNat ≤ p else q ≤ p * 2 ^ (-k).toNat

/-- Round the nonnegative rational `p / q` (with `q ≠ 0`) to the nearest
IEEE-754 double: 53-bit significand, round to nearest, ties to even. -/
def ratRound (p q : Nat) : Dy :=
  let e0 : Int := (bits p : Int) - (bits q : Int)
  let e : Int := if le2pow e0 q p then e0 else e0 - 1
  let shift : Int := 52 - e
  let pq : Nat × Nat :=
    if 0 ≤ shift then (p * 2 ^ shift.toNat, q) else (p, q * 2 ^ (-shift).toNat)
  let m0 : Nat := pq.1 / pq.2
  let r : Nat := pq.1 % pq.2
  let m : Nat :=
    if 2 * r < pq.2 then m0
    else if pq.2 < 2 * r then m0 + 1
    else if 2 ∣ m0 then m0 else m0 + 1
  ⟨m, e - 52⟩

/-- Round the signed rational `n / q` to the nearest double. -/
def ratRoundInt (n : Int) (q : Nat) : Dy :=
  if n < 0 then
    let d := ratRound n.natAbs q
    ⟨-d.num, d.exp⟩
  else ratRound n.toNat q

/-- Round an exact dyadic value to the nearest double. -/
def fpRound (x : Dy) : Dy :=
  if 0 ≤ x.exp then ratRoundInt (x.num * 2 ^ x.exp.toNat) 1
  else ratRoundInt x.num (2 ^ (-x.exp).toNat)

/-- Exact (unrounded) sum of two dyadic values. -/
def Dy.addExact (a b : Dy) : Dy :=
  if a.exp ≤ b.exp then ⟨a.num + b.num * 2 ^ (b.exp - a.exp).toNat, a.exp⟩
  else ⟨b.num + a.num * 2 ^ (a.exp - b.exp).toNat, b.exp⟩

/-- Python float addition: exact sum followed by double rounding. -/
def fpAdd (a b : Dy) : Dy := fpRound (a.addExact b)

/-- Python float division by a positive integer: exact quotient followed by
double rounding. -/
def fpDivNat (a : Dy) (n : Nat) : Dy :=
  if 0 ≤ a.exp then ratRoundInt (a.num * 2 ^ a.exp.toNat) n
  else ratRoundInt a.num (n * 2 ^ (-a.exp).toNat)

/-- Python `sum(...)` over a list of floats: left fold of float addition
starting from the integer `0`. -/
def pySum (l : List Dy) : Dy := l.foldl fpAdd ⟨0, 0⟩

/-- The IEEE double denoted by the Python literal `0.85`. -/
def lit085 : Dy := ratRound 85 100

/-- The IEEE double denoted by the Python literal `0.75`
(exactly representable). -/
def lit075 : Dy := ratRound 75 100

/-- Float comparison `a ≤ b` (doubles compare by their exact values). -/
def Dy.leB (a b : Dy) : Bool :=
  if a.exp ≤ b.exp then a.num ≤ b.num * 2 ^ (b.exp - a.exp).toNat
  else a.num * 2 ^ (a.exp - b.exp).toNat ≤ b.num

/-! ## Exact model of the golden-ratio float computation: ℚ[√5] -/

/-- An element `a + b·√5` of the quadratic field ℚ[√5]. -/
structure Qsqrt5 where
  a : ℚ
  b : ℚ
deriving DecidableEq, Repr

/-- Multiplication in ℚ[√5]. -/
def Qsqrt5.mul (x y : Qsqrt5) : Qsqrt5 :=
  ⟨x.a * y.a + 5 * (x.b * y.b), x.a * y.b + x.b * y.a⟩

/-- One in ℚ[√5]. -/
def Qsqrt5.one : Qsqrt5 := ⟨1, 0⟩

/-- Power in ℚ[√5] (Python `x ** n` for a natural exponent). -/
def Qsqrt5.pow (x : Qsqrt5) : Nat → Qsqrt5
  | 0 => Qsqrt5.one
  | n + 1 => (Qsqrt5.pow x n).mul x

/-- The real value of an element of ℚ[√5]. -/
noncomputable def Qsqrt5.toReal (x : Qsqrt5) : ℝ := x.a + x.b * Real.sqrt 5

/-! ## Data model (`app/core/cosmic_engine.py`) -/

/-- Embedding of `class CouncilAspect(str, Enum)`: the four council aspects, in
declaration order SEWU, PELU, RUWA, TEMU. -/
inductive CouncilAspect
  | SEWU
  | PELU
  | RUWA
  | TEMU
deriving DecidableEq, Repr

/-- The string value of each enum member. -/
def CouncilAspect.value : CouncilAspect → String
  | .SEWU => "sewu"
  | .PELU => "pelu"
  | .RUWA => "ruwa"
  | .TEMU => "temu"

/-- Iteration order of `for aspect in CouncilAspect`: declaration order. -/
def CouncilAspect.all : List CouncilAspect := [.SEWU, .PELU, .RUWA, .TEMU]

/-- Embedding of `class CosmicPrinciple(BaseModel)`. -/
structure CosmicPrinciple where
  id : Int
  name : String
  meaning : String
  description : String
  council_aspect : CouncilAspect
  mathematical_representation : String
  practical_application : String
deriving DecidableEq, Repr

/-- Embedding of `class CouncilPerspective(BaseModel)`.  `coherence_score` is a float
with the pydantic constraint `Field(ge=0, le=1)`; use `CouncilPerspective.mk?`
to model validated construction. -/
structure CouncilPerspective where
  aspect : CouncilAspect
  perspective : String
  reasoning : String
  recommendation : String
  principles_applied : List String
  coherence_score : Dy
deriving DecidableEq, Repr

/-- Validated pydantic construction of a `CouncilPerspective`: fails unless
`0 ≤ coherence_score ≤ 1`. -/
def CouncilPerspective.mk? (aspect : CouncilAspect) (perspective : String)
    (reasoning : String) (recommendation : String)
    (principles_applied : List String) (coherence_score : Dy) :
    Option CouncilPerspective :=
  if Dy.leB ⟨0, 0⟩ coherence_score ∧ Dy.leB coherence_score ⟨1, 0⟩ then
    some ⟨aspect, perspective, reasoning, recommendation, principles_applied,
          coherence_score⟩
  else none

/-- Embedding of `class CosmicDecision(BaseModel)`.  The `council_perspectives` dict is
modelled as an association list in insertion order. -/
structure CosmicDecision where
  integrated_decision : String
  council_perspectives : List (CouncilAspect × CouncilPerspective)
  consensus_level : Dy
  cosmic_coherence : Dy
  recommended_actions : List String
  developmental_stage : Int
deriving DecidableEq, Repr

/-! ## The principle catalog (`BenkhawiyaEngine._initialize_cosmic_principles`) -/

/-- Embedding of `BenkhawiyaEngine._initialize_cosmic_principles`: the immutable list of
42 Ka Cube principles, in declaration order. -/
def principles : List CosmicPrinciple := [
  -- PELU Principles (Truth, Boundaries, Integrity) - 11 principles
  { id := 1, name := "DÁNÁ", meaning := "Truth Alignment",
    description := "Fundamental reality alignment and cosmic truth measurement",
    council_aspect := .PELU,
    mathematical_representation := "Â_truth = ∇·Ψ_cosmic",
    practical_application := "Reality verification and truth discernment" },
  { id := 2, name := "KÉLÚ", meaning := "Boundary Clarity",
    description := "Clear delineation of sacred boundaries and limits",
    council_aspect := .PELU,
    mathematical_representation := "∂Ω/∂t = 0",
    practical_application := "Setting healthy boundaries and limits" },
  { id := 3, name := "SÉTÁ", meaning := "Precision Measurement",
    description := "Accurate measurement and assessment of reality",
    council_aspect := .PELU,
    mathematical_representation := "ε_measure → 0",
    practical_application := "Data-driven decision making" },
  { id := 4, name := "WÉNÁ", meaning := "Integrity Shield",
    description := "Protection and maintenance of wholeness and authenticity",
    council_aspect := .PELU,
    mathematical_representation := "∮ integrity·dl = 1",
    practical_application := "Maintaining ethical standards" },
  { id := 5, name := "PÉKÁ", meaning := "Discernment Light",
    description := "Clear seeing and wise judgment of situations",
    council_aspect := .PELU,
    mathematical_representation := "L_discern = ∫clarity·dλ",
    practical_application := "Critical thinking and analysis" },
  { id := 6, name := "RÉNÁ", meaning := "Truth Resonance",
    description := "Vibrational alignment with fundamental truth",
    council_aspect := .PELU,
    mathematical_representation := "ω_truth ≈ ω_reality",
    practical_application := "Authenticity in communication" },
  { id := 7, name := "TÉLÚ", meaning := "Test Validation",
    description := "Verification through rigorous testing",
    council_aspect := .PELU,
    mathematical_representation := "P(valid|test) → 1",
    practical_application := "Quality assurance processes" },
  { id := 8, name := "MÉKÁ", meaning := "Standard Calibration",
    description := "Alignment with universal standards and measures",
    council_aspect := .PELU,
    mathematical_representation := "x_actual = x_standard",
    practical_application := "Standardization and consistency" },
  { id := 9, name := "DÉWÁ", meaning := "Honesty Core",
    description := "Foundation of truthful expression and transparency",
    council_aspect := .PELU,
    mathematical_representation := "H = -Σp·log(p)",
    practical_application := "Transparent communication" },
  { id := 10, name := "LÉNÁ", meaning := "Law Harmony",
    description := "Alignment with natural and cosmic law",
    council_aspect := .PELU,
    mathematical_representation := "∇×E = -∂B/∂t",
    practical_application := "Legal and ethical compliance" },
  { id := 11, name := "NÉKÁ", meaning := "Clarity Beacon",
    description := "Illumination of truth in darkness",
    council_aspect := .PELU,
    mathematical_representation := "I = I₀e^(-μx)",
    practical_application := "Clear documentation and teaching" },
  -- TEMU Principles (Structure, Proportion, Timing) - 11 principles
  { id := 12, name := "MÁTÁ", meaning := "Justice Balance",
    description := "Right relationship and cosmic balance maintenance",
    council_aspect := .TEMU,
    mathematical_representation := "Â_justice = ∫balance·dΩ",
    practical_application := "Fairness and equitable distribution" },
  { id := 13, name := "FÍSÁ", meaning := "Golden Proportion",
    description := "Divine proportion and harmonic ratios in manifestation",
    council_aspect := .TEMU,
    mathematical_representation := "φ = (1+√5)/2",
    practical_application := "Aesthetic and functional design" },
  { id := 14, name := "RÍTÁ", meaning := "Sacred Timing",
    description := "Perfect timing and synchronization with cosmic cycles",
    council_aspect := .TEMU,
    mathematical_representation := "t_optimal = Φ(cycle)",
    practical_application := "Project planning and scheduling" },
  { id := 15, name := "SÍMÁ", meaning := "Symmetry Order",
    description := "Balanced structure and mirrored harmony",
    council_aspect := .TEMU,
    mathematical_representation := "S(x) = S(-x)",
    practical_application := "Organizational structure design" },
  { id := 16, name := "KRÍÁ", meaning := "Crystalline Matrix",
    description := "Perfect geometric structure and lattice formation",
    council_aspect := .TEMU,
    mathematical_representation := "A·B = 0",
    practical_application := "Systems architecture" },
  { id := 17, name := "BÓNÁ", meaning := "Foundation Strength",
    description := "Solid base and structural integrity",
    council_aspect := .TEMU,
    mathematical_representation := "σ_max < σ_yield",
    practical_application := "Infrastructure development" },
  { id := 18, name := "DRÍÁ", meaning := "Distribution Flow",
    description := "Optimal resource allocation and flow",
    council_aspect := .TEMU,
    mathematical_representation := "∇·F = ρ",
    practical_application := "Resource management" },
  { id := 19, name := "KÓNÁ", meaning := "Sacred Geometry",
    description := "Divine patterns in form and structure",
    council_aspect := .TEMU,
    mathematical_representation := "V = ∫∫∫ dV",
    practical_application := "Spatial planning" },
  { id := 20, name := "TRÍÁ", meaning := "Threefold Unity",
    description := "Trinity principle in manifestation",
    council_aspect := .TEMU,
    mathematical_representation := "Ψ = ψ₁ + ψ₂ + ψ₃",
    practical_application := "Three-pillar frameworks" },
  { id := 21, name := "MÉNÁ", meaning := "Measure Exactness",
    description := "Precise quantification and metrics",
    council_aspect := .TEMU,
    mathematical_representation := "Δx·Δp ≥ ℏ/2",
    practical_application := "Performance measurement" },
  { id := 22, name := "ÁRÍÁ", meaning := "Hierarchical Order",
    description := "Natural ordering and stratification",
    council_aspect := .TEMU,
    mathematical_representation := "E₀ < E₁ < E₂ < ...",
    practical_application := "Organizational hierarchy" },
  -- SEWU Principles (Nurturing, Connection, Community) - 10 principles
  { id := 23, name := "HÓTÉ", meaning := "Harmonic Integration",
    description := "Coherent integration of diverse elements into unified whole",
    council_aspect := .SEWU,
    mathematical_representation := "Â_harmony = Σ(sin(ωt + φ))",
    practical_application := "Conflict resolution and relationship harmony" },
  { id := 24, name := "LÚVÁ", meaning := "Love Resonance",
    description := "Vibrational frequency of unconditional love",
    council_aspect := .SEWU,
    mathematical_representation := "L(r) = k/r²",
    practical_application := "Compassionate relationships" },
  { id := 25, name := "ÚNÍÁ", meaning := "Unity Consciousness",
    description := "Recognition of interconnectedness of all being",
    council_aspect := .SEWU,
    mathematical_representation := "Ψ_collective = ⨂Ψᵢ",
    practical_application := "Community building" },
  { id := 26, name := "KÁRÉ", meaning := "Care Nurturing",
    description := "Tender attention and supportive growth",
    council_aspect := .SEWU,
    mathematical_representation := "dG/dt = r·G·(1-G/K)",
    practical_application := "Mentorship and support" },
  { id := 27, name := "ÉMÚÁ", meaning := "Empathy Bridge",
    description := "Deep understanding and emotional resonance",
    council_aspect := .SEWU,
    mathematical_representation := "E_shared = ∫ψ₁*·ψ₂ dτ",
    practical_application := "Active listening" },
  { id := 28, name := "SHÁNÁ", meaning := "Sharing Flow",
    description := "Generous circulation of resources and wisdom",
    council_aspect := .SEWU,
    mathematical_representation := "∮ J·dA = 0",
    practical_application := "Knowledge sharing" },
  { id := 29, name := "HÍLÁ", meaning := "Healing Presence",
    description := "Restorative energy and therapeutic power",
    council_aspect := .SEWU,
    mathematical_representation := "H(t) = H₀·e^(-λt)",
    practical_application := "Healing practices" },
  { id := 30, name := "GRÁWÁ", meaning := "Growth Cultivation",
    description := "Organic development and evolutionary progress",
    council_aspect := .SEWU,
    mathematical_representation := "∂u/∂t = D∇²u",
    practical_application := "Personal development" },
  { id := 31, name := "PÉWÁ", meaning := "Peace Stillness",
    description := "Tranquil center and harmonious equilibrium",
    council_aspect := .SEWU,
    mathematical_representation := "∇V = 0",
    practical_application := "Meditation and calm" },
  { id := 32, name := "JÓYÁ", meaning := "Joy Radiance",
    description := "Light emanation of happiness and celebration",
    council_aspect := .SEWU,
    mathematical_representation := "J = σT⁴",
    practical_application := "Positive environment" },
  -- RUWA Principles (Vision, Possibility, Innovation) - 10 principles
  { id := 33, name := "VÍSÁ", meaning := "Vision Sight",
    description := "Clear perception of future possibilities",
    council_aspect := .RUWA,
    mathematical_representation := "V(future) = ∫P(t)·dt",
    practical_application := "Strategic planning" },
  { id := 34, name := "CRÉÁ", meaning := "Creative Force",
    description := "Generative power of imagination and innovation",
    council_aspect := .RUWA,
    mathematical_representation := "C = ∂Ψ/∂imagination",
    practical_application := "Innovation and creativity" },
  { id := 35, name := "ÉXPÁ", meaning := "Expansion Wave",
    description := "Outward growth and boundary transcendence",
    council_aspect := .RUWA,
    mathematical_representation := "r(t) = r₀·e^(Ht)",
    practical_application := "Market expansion" },
  { id := 36, name := "TRÁNÁ", meaning := "Transformation Alchemy",
    description := "Fundamental change and metamorphosis",
    council_aspect := .RUWA,
    mathematical_representation := "A → B: ΔG < 0",
    practical_application := "Change management" },
  { id := 37, name := "INSÁ", meaning := "Insight Flash",
    description := "Sudden illumination and epiphany",
    council_aspect := .RUWA,
    mathematical_representation := "I(t) = I₀·δ(t-t₀)",
    practical_application := "Breakthrough thinking" },
  { id := 38, name := "PÓSSÁ", meaning := "Possibility Field",
    description := "Quantum potential and multiple futures",
    council_aspect := .RUWA,
    mathematical_representation := "Ψ = Σcᵢ|ψᵢ⟩",
    practical_application := "Scenario planning" },
  { id := 39, name := "IMÁGÁ", meaning := "Imagination Power",
    description := "Mental creation and visualization strength",
    council_aspect := .RUWA,
    mathematical_representation := "I·V = Reality",
    practical_application := "Visioning exercises" },
  { id := 40, name := "NÓVÁ", meaning := "Innovation Spark",
    description := "Novel combination and inventive solutions",
    council_aspect := .RUWA,
    mathematical_representation := "N = recombine(A,B)",
    practical_application := "Product development" },
  { id := 41, name := "FÓRÉÁ", meaning := "Foresight Wisdom",
    description := "Anticipatory knowledge and prophetic vision",
    council_aspect := .RUWA,
    mathematical_representation := "F(t+Δt) = f(state,t)",
    practical_application := "Risk assessment" },
  { id := 42, name := "ÉVÓÁ", meaning := "Evolution Drive",
    description := "Progressive development toward higher complexity",
    council_aspect := .RUWA,
    mathematical_representation := "dΩ/dt > 0",
    practical_application := "Continuous improvement" }
]

/-! ## Aspect frameworks (`BenkhawiyaEngine._initialize_aspect_frameworks`) -/

/-- Value type of the per-aspect framework dict. -/
structure AspectFramework where
  focus : List String
  questions : List String
  weight : Dy
deriving DecidableEq, Repr

/-- Embedding of `BenkhawiyaEngine._initialize_aspect_frameworks`: a dict with exactly the
four aspects as keys, modelled as a total function. -/
def aspect_frameworks : CouncilAspect → AspectFramework
  | .SEWU =>
    { focus := ["nurturing", "connection", "emotional_intelligence", "community"],
      questions := ["How does this nurture growth and relationships?",
                    "What connections need cultivation?",
                    "How does this affect communal harmony?"],
      weight := ratRound 25 100 }
  | .PELU =>
    { focus := ["truth", "boundaries", "integrity", "measurement"],
      questions := ["What is the fundamental truth here?",
                    "What boundaries ensure integrity?",
                    "How do we measure accuracy and alignment?"],
      weight := ratRound 25 100 }
  | .RUWA =>
    { focus := ["vision", "possibility", "innovation", "perspective"],
      questions := ["What future possibilities does this reveal?",
                    "How can perspective be expanded?",
                    "What visionary paths are available?"],
      weight := ratRound 25 100 }
  | .TEMU =>
    { focus := ["structure", "proportion", "timing", "manifestation"],
      questions := ["What structural integrity is needed?",
                    "How is cosmic proportion maintained?",
                    "What is the optimal timing for manifestation?"],
      weight := ratRound 25 100 }

/-! ## Python string formatting helpers -/

/-- A single-quote character as a string (written via its code point). -/
def pyQuote : String := (Char.ofNat 39).toString

/-- Python `str()` of a list of strings, as produced by f-string
interpolation: each element surrounded by single quotes, separated by
`", "`, inside square brackets. -/
def pyStrList (l : List String) : String :=
  "[" ++ String.intercalate ", " (l.map (fun s => pyQuote ++ s ++ pyQuote)) ++ "]"

/-- Python `str.upper()` for the ASCII strings it is applied to here. -/
def pyUpper (s : String) : String := ⟨s.data.map Char.toUpper⟩

/-! ## The engine (`class BenkhawiyaEngine`) -/

/-- Embedding of `self.phi = (1 + math.sqrt(5)) / 2`, exactly, as the element
`1/2 + (1/2)·√5` of ℚ[√5]. -/
def phi : Qsqrt5 := ⟨1 / 2, 1 / 2⟩

/-- Embedding of `BenkhawiyaEngine._analyze_aspect`.  The `context` dict is a mapping from
strings to arbitrary values; pydantic validation of the produced
`CouncilPerspective` makes the result an `Option`.  (`question` and `context`
are parameters of the Python coroutine; its body uses neither.) -/
def _analyze_aspect {α : Type} (question : String) (aspect : CouncilAspect)
    (context : List (String × α)) : Option CouncilPerspective :=
  let framework := aspect_frameworks aspect
  let aspectPrinciples := principles.filter (fun p => p.council_aspect == aspect)
  let perspective := pyUpper aspect.value ++ " analyzes through " ++
    pyStrList framework.focus
  let reasoning := "Considering: " ++ String.intercalate " | " framework.questions
  let recommendation := "Apply principles: " ++
    pyStrList ((aspectPrinciples.take 2).map (·.name))
  CouncilPerspective.mk? aspect perspective reasoning recommendation
    ((aspectPrinciples.take 2).map (·.name)) lit085

/-- Embedding of `BenkhawiyaEngine._generate_integrated_decision`. -/
def _generate_integrated_decision
    (perspectives : List (CouncilAspect × CouncilPerspective))
    (question : String) : String :=
  let aspects_summary := String.intercalate " | " (perspectives.map
    (fun ap => pyUpper ap.1.value ++ ": " ++ ap.2.recommendation.take 50 ++ "..."))
  "COSMIC DECISION: " ++ question ++ " → Integrated wisdom: " ++ aspects_summary

/-- Embedding of `BenkhawiyaEngine._generate_actions`. -/
def _generate_actions
    (perspectives : List (CouncilAspect × CouncilPerspective)) : List String :=
  perspectives.map
    (fun ap => "Apply " ++ ap.1.value ++ " wisdom: " ++
      ap.2.recommendation.take 60 ++ "...")

/-- Embedding of `BenkhawiyaEngine._synthesize_decision`. -/
def _synthesize_decision (perspectives : List CouncilPerspective)
    (question : String) : CosmicDecision :=
  let perspectives_dict := perspectives.map (fun p => (p.aspect, p))
  let coherence :=
    fpDivNat (pySum (perspectives.map (·.coherence_score))) perspectives.length
  let consensus := lit075
  let integrated := _generate_integrated_decision perspectives_dict question
  let actions := _generate_actions perspectives_dict
  { integrated_decision := integrated,
    council_perspectives := perspectives_dict,
    consensus_level := consensus,
    cosmic_coherence := coherence,
    recommended_actions := actions,
    developmental_stage := 5 }

/-- Embedding of `BenkhawiyaEngine.consult_council`.  `context=None` defaults to the empty
dict; the four aspect analyses are gathered in declaration order and any
failure fails the whole call. -/
def consult_council {α : Type} (question : String)
    (context : Option (List (String × α))) : Option CosmicDecision :=
  let ctx := context.getD []
  let tasks := CouncilAspect.all.mapM (fun aspect => _analyze_aspect question aspect ctx)
  tasks.map (fun perspectives => _synthesize_decision perspectives question)

/-- Embedding of `BenkhawiyaEngine.calculate_golden_progression`: `self.phi ** n` (the
route below only calls it with `0 ≤ n ≤ 100`). -/
def calculate_golden_progression (n : Nat) : Qsqrt5 := phi.pow n

/-- Embedding of `BenkhawiyaEngine.get_principles_by_aspect`. -/
def get_principles_by_aspect (aspect : CouncilAspect) : List CosmicPrinciple :=
  principles.filter (fun p => p.council_aspect == aspect)

/-! ## The golden-ratio route (`app/main.py`, `calculate_golden_progression`) -/

/-- FastAPI `HTTPException` payload. -/
structure HTTPError where
  status_code : Nat
  detail : String
deriving DecidableEq, Repr

/-- The JSON body returned by `GET /mathematics/golden-ratio/{n}`. -/
structure GoldenProgressionResponse where
  developmental_stage : Int
  golden_ratio : Qsqrt5
  progression_value : Qsqrt5
  description : String
deriving DecidableEq, Repr

/-- The route handler `calculate_golden_progression` of `app/main.py`:
validates `0 <= n <= 100` (else HTTP 400) before calling the engine. -/
def calculate_golden_progression_route (n : Int) :
    Except HTTPError GoldenProgressionResponse :=
  if n < 0 ∨ n > 100 then
    .error ⟨400, "n must be between 0 and 100"⟩
  else
    let progression := calculate_golden_progression n.toNat
    .ok { developmental_stage := n,
          golden_ratio := phi,
          progression_value := progression,
          description := "Cosmic developmental progression at stage " ++ toString n }

/-! ## Closed forms of the analyzer and aggregator outputs -/

/-- The perspective `_analyze_aspect` produces for an aspect: a constant,
independent of the question and the context. -/
def perspOf (aspect : CouncilAspect) : CouncilPerspective :=
  { aspect := aspect,
    perspective := pyUpper aspect.value ++ " analyzes through " ++
      pyStrList (aspect_frameworks aspect).focus,
    reasoning := "Considering: " ++
      String.intercalate " | " (aspect_frameworks aspect).questions,
    recommendation := "Apply principles: " ++
      pyStrList (((principles.filter (fun p => p.council_aspect == aspect)).take 2).map (·.name)),
    principles_applied :=
      ((principles.filter (fun p => p.council_aspect == aspect)).take 2).map (·.name),
    coherence_score := lit085 }

/-- The decision `consult_council` produces for a question. -/
def decisionOf (question : String) : CosmicDecision :=
  _synthesize_decision (CouncilAspect.all.map perspOf) question

/-! ## Master evaluation lemmas -/

set_option maxRecDepth 10000

theorem analyze_eq {α : Type} (q : String) (a : CouncilAspect)
    (ctx : List (String × α)) : _analyze_aspect q a ctx = some (perspOf a) := by
  cases a <;> rfl

theorem consult_eq {α : Type} (q : String) (ctx : Option (List (String × α))) :
    consult_council q ctx = some (decisionOf q) := rfl

/-! ## Interpretation lemmas -/

theorem Dy.leB_iff (a b : Dy) : Dy.leB a b = true ↔ a.toRat ≤ b.toRat := by
  rcases a with ⟨m, e⟩
  rcases b with ⟨n, f⟩
  unfold Dy.leB Dy.toRat
  dsimp only
  split
  · rename_i h
    set k : ℕ := (f - e).toNat with hk
    have hf : f = e + (k : ℤ) := by omega
    have h2e : (0 : ℚ) < (2:ℚ) ^ e := zpow_pos (by norm_num) e
    rw [decide_eq_true_eq, hf]
    constructor
    · intro hle
      have hq : (m : ℚ) ≤ (n : ℚ) * (2:ℚ) ^ (k : ℕ) := by exact_mod_cast hle
      calc (m : ℚ) * (2:ℚ) ^ e
          ≤ ((n : ℚ) * (2:ℚ) ^ (k : ℕ)) * (2:ℚ) ^ e :=
            mul_le_mul_of_nonneg_right hq h2e.le
        _ = (n : ℚ) * (2:ℚ) ^ (e + (k : ℤ)) := by
            rw [zpow_add₀ (by norm_num : (2:ℚ) ≠ 0), zpow_natCast]; ring
    · intro hle
      have hq : (m : ℚ) * (2:ℚ) ^ e ≤ ((n : ℚ) * (2:ℚ) ^ (k : ℕ)) * (2:ℚ) ^ e := by
        calc (m : ℚ) * (2:ℚ) ^ e
            ≤ (n : ℚ) * (2:ℚ) ^ (e + (k : ℤ)) := hle
          _ = ((n : ℚ) * (2:ℚ) ^ (k : ℕ)) * (2:ℚ) ^ e := by
              rw [zpow_add₀ (by norm_num : (2:ℚ) ≠ 0), zpow_natCast]; ring
      have := le_of_mul_le_mul_right hq h2e
      exact_mod_cast this
  · rename_i h
    set k : ℕ := (e - f).toNat with hk
    have he : e = f + (k : ℤ) := by omega
    have h2f : (0 : ℚ) < (2:ℚ) ^ f := zpow_pos (by norm_num) f
    rw [decide_eq_true_eq, he]
    constructor
    · intro hle
      have hq : (m : ℚ) * (2:ℚ) ^ (k : ℕ) ≤ (n : ℚ) := by exact_mod_cast hle
      calc (m : ℚ) * (2:ℚ) ^ (f + (k : ℤ))
          = ((m : ℚ) * (2:ℚ) ^ (k : ℕ)) * (2:ℚ) ^ f := by
            rw [zpow_add₀ (by norm_num : (2:ℚ) ≠ 0), zpow_natCast]; ring
        _ ≤ (n : ℚ) * (2:ℚ) ^ f := mul_le_mul_of_nonneg_right hq h2f.le
    · intro hle
      have hq : ((m : ℚ) * (2:ℚ) ^ (k : ℕ)) * (2:ℚ) ^ f ≤ (n : ℚ) * (2:ℚ) ^ f := by
        calc ((m : ℚ) * (2:ℚ) ^ (k : ℕ)) * (2:ℚ) ^ f
            = (m : ℚ) * (2:ℚ) ^ (f + (k : ℤ)) := by
              rw [zpow_add₀ (by norm_num : (2:ℚ) ≠ 0), zpow_natCast]; ring
          _ ≤ (n : ℚ) * (2:ℚ) ^ f := hle
      have := le_of_mul_le_mul_right hq h2f
      exact_mod_cast this

theorem lit085_val : lit085 = ⟨7656119366529843, -53⟩ := by decide

theorem lit075_val : lit075 = ⟨6755399441055744, -53⟩ := by decide

theorem lit085_toRat : lit085.toRat = 7656119366529843 / 2 ^ 53 := by
  rw [lit085_val]; norm_num [Dy.toRat]

theorem lit075_toRat : lit075.toRat = 3 / 4 := by
  rw [lit075_val]; norm_num [Dy.toRat]

/-- The double `lit085` is within half an ulp of `0.85`: it is the IEEE
double nearest to the decimal literal `0.85` (neighbouring doubles in this
binade are `2 ^ (-53)` apart). -/
theorem lit085_nearest : |(17 : ℚ) / 20 - lit085.toRat| < 1 / 2 ^ 54 := by
  rw [lit085_toRat, abs_sub_lt_iff]
  norm_num

theorem Qsqrt5.toReal_mul (x y : Qsqrt5) :
    (x.mul y).toReal = x.toReal * y.toReal := by
  unfold Qsqrt5.toReal Qsqrt5.mul
  have h5 : (Real.sqrt 5) ^ 2 = 5 := Real.sq_sqrt (by norm_num)
  push_cast
  linear_combination (-((x.b : ℝ) * (y.b : ℝ))) * h5

theorem Qsqrt5.toReal_one : Qsqrt5.one.toReal = 1 := by
  norm_num [Qsqrt5.toReal, Qsqrt5.one]

theorem Qsqrt5.toReal_pow (x : Qsqrt5) (n : ℕ) :
    (x.pow n).toReal = x.toReal ^ n := by
  induction n with
  | zero => simpa [Qsqrt5.pow] using Qsqrt5.toReal_one
  | succ n ih => rw [Qsqrt5.pow, Qsqrt5.toReal_mul, ih, pow_succ]

theorem phi_toReal : phi.toReal = (1 + Real.sqrt 5) / 2 := by
  unfold phi Qsqrt5.toReal
  push_cast
  ring

theorem sqrt5_lt_three : Real.sqrt 5 < 3 :=
  (Real.sqrt_lt' (by norm_num)).mpr (by norm_num)

theorem phi_real_pos : (0 : ℝ) < (1 + Real.sqrt 5) / 2 := by
  have := Real.sqrt_nonneg 5
  linarith

theorem phi_pow_lt (n : ℕ) (hn : n ≤ 100) :
    ((1 + Real.sqrt 5) / 2) ^ n < 2 ^ 1024 := by
  have h0 : (0 : ℝ) ≤ (1 + Real.sqrt 5) / 2 := le_of_lt phi_real_pos
  have h2 : (1 + Real.sqrt 5) / 2 < 2 := by
    have := sqrt5_lt_three
    linarith
  calc ((1 + Real.sqrt 5) / 2) ^ n
      ≤ 2 ^ n := pow_le_pow_left₀ h0 (le_of_lt h2) n
    _ ≤ 2 ^ 100 := pow_le_pow_right₀ (by norm_num) hn
    _ < 2 ^ 1024 := by norm_num

/-! ## The claims -/

/-- C1: for every question string and context mapping, `consult_council`
succeeds and the `integrated_decision` of its result equals
`"COSMIC DECISION: {question} → Integrated wisdom: "` followed by four
segments joined by `" | "`, one per aspect in enum declaration order
(SEWU, PELU, RUWA, TEMU), each segment being the upper-cased aspect label,
then `": "`, then the first 50 characters of the recommendation of that aspect
text, always followed by the literal `"..."` suffix; each recommendation text
is shorter than 50 characters, so the 50-character slice is the full text,
unpadded. -/
theorem claim_C1 {α : Type} (question : String)
    (context : Option (List (String × α))) :
    ∃ d : CosmicDecision,
      consult_council question context = some d ∧
      d.council_perspectives.map Prod.fst = CouncilAspect.all ∧
      d.integrated_decision =
        "COSMIC DECISION: " ++ question ++ " → Integrated wisdom: " ++
          String.intercalate " | "
            (d.council_perspectives.map (fun ap =>
              pyUpper ap.1.value ++ ": " ++ ap.2.recommendation.take 50 ++ "...")) ∧
      ∀ ap ∈ d.council_perspectives,
        ap.2.recommendation.length < 50 ∧
        ap.2.recommendation.take 50 = ap.2.recommendation := by
  refine ⟨decisionOf question, consult_eq question context, rfl, rfl, ?_⟩
  exact (by decide :
    ∀ ap ∈ ([(CouncilAspect.SEWU, perspOf .SEWU), (.PELU, perspOf .PELU),
             (.RUWA, perspOf .RUWA), (.TEMU, perspOf .TEMU)] :
             List (CouncilAspect × CouncilPerspective)),
      ap.2.recommendation.length < 50 ∧
      ap.2.recommendation.take 50 = ap.2.recommendation)

/-- C1 witness: the end-to-end example question of the spec. -/
theorem claim_C1_witness :
    ∃ d : CosmicDecision,
      consult_council "Should I change jobs?"
        (none : Option (List (String × Unit))) = some d ∧
      d.council_perspectives.map Prod.fst = CouncilAspect.all ∧
      d.integrated_decision =
        "COSMIC DECISION: " ++ "Should I change jobs?" ++ " → Integrated wisdom: " ++
          String.intercalate " | "
            (d.council_perspectives.map (fun ap =>
              pyUpper ap.1.value ++ ": " ++ ap.2.recommendation.take 50 ++ "...")) ∧
      ∀ ap ∈ d.council_perspectives,
        ap.2.recommendation.length < 50 ∧
        ap.2.recommendation.take 50 = ap.2.recommendation :=
  claim_C1 "Should I change jobs?" none

/-- C2: for every question and context, the `cosmic_coherence` of the
decision is the float mean of the four coherence scores, each
of which is the double `0.85` (`lit085`); under the IEEE-754
double arithmetic the mean is again exactly the double `0.85`, whose exact
value is `7656119366529843 / 2^53` (within half an ulp of `17/20`). -/
theorem claim_C2 {α : Type} (question : String)
    (context : Option (List (String × α))) :
    ∃ d : CosmicDecision,
      consult_council question context = some d ∧
      (∀ ap ∈ d.council_perspectives, ap.2.coherence_score = lit085) ∧
      d.cosmic_coherence =
        fpDivNat (pySum (d.council_perspectives.map (fun ap => ap.2.coherence_score)))
          d.council_perspectives.length ∧
      d.cosmic_coherence = lit085 ∧
      lit085.toRat = 7656119366529843 / 2 ^ 53 ∧
      |(17 : ℚ) / 20 - lit085.toRat| < 1 / 2 ^ 54 := by
  refine ⟨decisionOf question, consult_eq question context, ?_, rfl, rfl,
    lit085_toRat, lit085_nearest⟩
  exact (by decide :
    ∀ ap ∈ ([(CouncilAspect.SEWU, perspOf .SEWU), (.PELU, perspOf .PELU),
             (.RUWA, perspOf .RUWA), (.TEMU, perspOf .TEMU)] :
             List (CouncilAspect × CouncilPerspective)),
      ap.2.coherence_score = lit085)

/-- C2 witness: the claim at a concrete question and empty context. -/
theorem claim_C2_witness :
    ∃ d : CosmicDecision,
      consult_council "Should I change jobs?"
        (some ([] : List (String × Unit))) = some d ∧
      (∀ ap ∈ d.council_perspectives, ap.2.coherence_score = lit085) ∧
      d.cosmic_coherence =
        fpDivNat (pySum (d.council_perspectives.map (fun ap => ap.2.coherence_score)))
          d.council_perspectives.length ∧
      d.cosmic_coherence = lit085 ∧
      lit085.toRat = 7656119366529843 / 2 ^ 53 ∧
      |(17 : ℚ) / 20 - lit085.toRat| < 1 / 2 ^ 54 :=
  claim_C2 "Should I change jobs?" (some [])

/-- C3: for every question and context, the `council_perspectives` mapping
of the decision has exactly the four aspects as keys, in declaration order,
with no omissions and no duplicates, and the perspective stored under each
key carries that same aspect in its `aspect` field. -/
theorem claim_C3 {α : Type} (question : String)
    (context : Option (List (String × α))) :
    ∃ d : CosmicDecision,
      consult_council question context = some d ∧
      d.council_perspectives.map Prod.fst = CouncilAspect.all ∧
      (d.council_perspectives.map Prod.fst).Nodup ∧
      (∀ a : CouncilAspect, a ∈ d.council_perspectives.map Prod.fst) ∧
      ∀ ap ∈ d.council_perspectives, ap.2.aspect = ap.1 := by
  refine ⟨decisionOf question, consult_eq question context, rfl, ?_, ?_, ?_⟩
  · exact (by decide :
      ([CouncilAspect.SEWU, .PELU, .RUWA, .TEMU] : List CouncilAspect).Nodup)
  · have h : ∀ b : CouncilAspect,
        b ∈ ([CouncilAspect.SEWU, .PELU, .RUWA, .TEMU] : List CouncilAspect) := by
      intro b
      cases b <;> decide
    exact h
  · exact (by decide :
      ∀ ap ∈ ([(CouncilAspect.SEWU, perspOf .SEWU), (.PELU, perspOf .PELU),
               (.RUWA, perspOf .RUWA), (.TEMU, perspOf .TEMU)] :
               List (CouncilAspect × CouncilPerspective)),
        ap.2.aspect = ap.1)

/-- C3 witness: the claim at a concrete question and context. -/
theorem claim_C3_witness :
    ∃ d : CosmicDecision,
      consult_council "q" (some [("k", "v")]) = some d ∧
      d.council_perspectives.map Prod.fst = CouncilAspect.all ∧
      (d.council_perspectives.map Prod.fst).Nodup ∧
      (∀ a : CouncilAspect, a ∈ d.council_perspectives.map Prod.fst) ∧
      ∀ ap ∈ d.council_perspectives, ap.2.aspect = ap.1 :=
  claim_C3 "q" (some [("k", "v")])

/-- C4: the catalog holds exactly 42 principles whose ids are 1..42 in
ascending declaration order; for every aspect, `get_principles_by_aspect`
returns exactly the catalog entries with that aspect, preserving declaration
order (it is a sublist of the catalog), and the four result lengths are
11 (PELU), 11 (TEMU), 10 (SEWU), 10 (RUWA), summing to 42. -/
theorem claim_C4 :
    principles.length = 42 ∧
    principles.map (·.id) = (List.range 42).map (fun i => (i : Int) + 1) ∧
    (∀ a : CouncilAspect,
      (get_principles_by_aspect a).Sublist principles ∧
      ∀ p : CosmicPrinciple,
        p ∈ get_principles_by_aspect a ↔ p ∈ principles ∧ p.council_aspect = a) ∧
    (get_principles_by_aspect .PELU).length = 11 ∧
    (get_principles_by_aspect .TEMU).length = 11 ∧
    (get_principles_by_aspect .SEWU).length = 10 ∧
    (get_principles_by_aspect .RUWA).length = 10 ∧
    (CouncilAspect.all.map (fun a => (get_principles_by_aspect a).length)).sum = 42 := by
  refine ⟨by decide, by decide, ?_, by decide, by decide, by decide, by decide, by decide⟩
  intro a
  constructor
  · exact List.filter_sublist principles
  · intro p
    simp [get_principles_by_aspect, List.mem_filter]

/-- C5: for every question and context, the `recommended_actions` of the
decision is a sequence of exactly 4 strings, one per aspect in enum
declaration order, the entry for each aspect being
`"Apply {aspect} wisdom: "` followed by the first 60 characters of that
recommendation text of that aspect followed by `"..."` — a 60-character
truncation, distinct from the 50-character one of `integrated_decision`
(each recommendation is shorter than 60 characters, so the slice is the full
text). -/
theorem claim_C5 {α : Type} (question : String)
    (context : Option (List (String × α))) :
    ∃ d : CosmicDecision,
      consult_council question context = some d ∧
      d.council_perspectives.map Prod.fst = CouncilAspect.all ∧
      d.recommended_actions.length = 4 ∧
      d.recommended_actions = d.council_perspectives.map (fun ap =>
        "Apply " ++ ap.1.value ++ " wisdom: " ++ ap.2.recommendation.take 60 ++ "...") ∧
      ∀ ap ∈ d.council_perspectives,
        ap.2.recommendation.take 60 = ap.2.recommendation := by
  refine ⟨decisionOf question, consult_eq question context, rfl, rfl, rfl, ?_⟩
  exact (by decide :
    ∀ ap ∈ ([(CouncilAspect.SEWU, perspOf .SEWU), (.PELU, perspOf .PELU),
             (.RUWA, perspOf .RUWA), (.TEMU, perspOf .TEMU)] :
             List (CouncilAspect × CouncilPerspective)),
      ap.2.recommendation.take 60 = ap.2.recommendation)

/-- C5 witness: the claim at a concrete question and empty context. -/
theorem claim_C5_witness :
    ∃ d : CosmicDecision,
      consult_council "q" (none : Option (List (String × Unit))) = some d ∧
      d.council_perspectives.map Prod.fst = CouncilAspect.all ∧
      d.recommended_actions.length = 4 ∧
      d.recommended_actions = d.council_perspectives.map (fun ap =>
        "Apply " ++ ap.1.value ++ " wisdom: " ++ ap.2.recommendation.take 60 ++ "...") ∧
      ∀ ap ∈ d.council_perspectives,
        ap.2.recommendation.take 60 = ap.2.recommendation :=
  claim_C5 "q" none

/-- C6: for every question and context, the decision has `consensus_level`
exactly the float literal `0.75` (whose exact value is `3/4`) and
`developmental_stage` exactly the integer literal `5`. -/
theorem claim_C6 {α : Type} (question : String)
    (context : Option (List (String × α))) :
    ∃ d : CosmicDecision,
      consult_council question context = some d ∧
      d.consensus_level = lit075 ∧
      lit075.toRat = 3 / 4 ∧
      d.developmental_stage = 5 :=
  ⟨decisionOf question, consult_eq question context, rfl, lit075_toRat, rfl⟩

/-- C6 witness: the claim at a concrete question and context. -/
theorem claim_C6_witness :
    ∃ d : CosmicDecision,
      consult_council "q" (some [("a", (1 : Nat))]) = some d ∧
      d.consensus_level = lit075 ∧
      lit075.toRat = 3 / 4 ∧
      d.developmental_stage = 5 :=
  claim_C6 "q" (some [("a", 1)])

/-- C7: the golden-ratio route rejects every integer `n` with `n < 0` or
`n > 100` with HTTP 400 (returning the error without any progression value);
for every `n` with `0 ≤ n ≤ 100` it succeeds, and the returned
`progression_value` is the engine computation `phi ** n`, whose real value is
`((1 + √5)/2) ^ n`, positive and below `2^1024` (hence a finite double);
in particular at `n = 0` the progression value is exactly `1`. -/
theorem claim_C7 (n : Int) :
    ((n < 0 ∨ n > 100) →
      calculate_golden_progression_route n =
        Except.error ⟨400, "n must be between 0 and 100"⟩) ∧
    (0 ≤ n → n ≤ 100 →
      ∃ r : GoldenProgressionResponse,
        calculate_golden_progression_route n = Except.ok r ∧
        r.developmental_stage = n ∧
        r.progression_value = calculate_golden_progression n.toNat ∧
        r.progression_value.toReal = ((1 + Real.sqrt 5) / 2) ^ n.toNat ∧
        0 < r.progression_value.toReal ∧
        r.progression_value.toReal < 2 ^ 1024) ∧
    (∃ r0 : GoldenProgressionResponse,
      calculate_golden_progression_route 0 = Except.ok r0 ∧
      r0.progression_value = Qsqrt5.one ∧
      r0.progression_value.toReal = 1) := by
  refine ⟨?_, ?_, ?_⟩
  · intro h
    unfold calculate_golden_progression_route
    rw [if_pos h]
  · intro h0 h100
    have hne : ¬(n < 0 ∨ n > 100) := by omega
    unfold calculate_golden_progression_route
    rw [if_neg hne]
    have hval : (calculate_golden_progression n.toNat).toReal
        = ((1 + Real.sqrt 5) / 2) ^ n.toNat := by
      rw [show calculate_golden_progression n.toNat = phi.pow n.toNat from rfl,
        Qsqrt5.toReal_pow, phi_toReal]
    refine ⟨_, rfl, rfl, rfl, hval, ?_, ?_⟩
    · rw [hval]
      exact pow_pos phi_real_pos _
    · rw [hval]
      exact phi_pow_lt n.toNat (by omega)
  · exact ⟨_, rfl, rfl, Qsqrt5.toReal_one⟩

/-- C7 witness: rejection at `-1` and `101`, success with a finite value at
`100`, and the exact value `1` at `0`. -/
theorem claim_C7_witness :
    calculate_golden_progression_route (-1) =
      Except.error ⟨400, "n must be between 0 and 100"⟩ ∧
    calculate_golden_progression_route 101 =
      Except.error ⟨400, "n must be between 0 and 100"⟩ ∧
    (∃ r : GoldenProgressionResponse,
      calculate_golden_progression_route 100 = Except.ok r ∧
      r.developmental_stage = 100 ∧
      r.progression_value = calculate_golden_progression (100 : Int).toNat ∧
      r.progression_value.toReal = ((1 + Real.sqrt 5) / 2) ^ (100 : Int).toNat ∧
      0 < r.progression_value.toReal ∧
      r.progression_value.toReal < 2 ^ 1024) ∧
    (∃ r0 : GoldenProgressionResponse,
      calculate_golden_progression_route 0 = Except.ok r0 ∧
      r0.progression_value = Qsqrt5.one ∧
      r0.progression_value.toReal = 1) :=
  ⟨(claim_C7 (-1)).1 (Or.inl (by norm_num)),
   (claim_C7 101).1 (Or.inr (by norm_num)),
   (claim_C7 100).2.1 (by norm_num) (by norm_num),
   (claim_C7 0).2.2⟩

/-- C8: every perspective the analyzer produces has `coherence_score` in
the closed interval `[0, 1]`; this is enforced by validated construction
(`CouncilPerspective.mk?` fails whenever the score lies outside `[0, 1]`),
and the failure branch is unreachable from the analyzer because it always
supplies the constant double `0.85`, which lies in `[0, 1]`. -/
theorem claim_C8 :
    (∀ (a : CouncilAspect) (p r rec : String) (names : List String) (c : Dy)
       (persp : CouncilPerspective),
       CouncilPerspective.mk? a p r rec names c = some persp →
         0 ≤ persp.coherence_score.toRat ∧ persp.coherence_score.toRat ≤ 1) ∧
    (∀ (a : CouncilAspect) (p r rec : String) (names : List String) (c : Dy),
       (c.toRat < 0 ∨ 1 < c.toRat) →
         CouncilPerspective.mk? a p r rec names c = none) ∧
    (∀ (α : Type) (q : String) (asp : CouncilAspect) (ctx : List (String × α)),
       ∃ persp : CouncilPerspective,
         _analyze_aspect q asp ctx = some persp ∧
         persp.coherence_score = lit085 ∧
         0 ≤ lit085.toRat ∧ lit085.toRat ≤ 1) := by
  have h0 : Dy.toRat ⟨0, 0⟩ = 0 := by norm_num [Dy.toRat]
  have h1 : Dy.toRat ⟨1, 0⟩ = 1 := by norm_num [Dy.toRat]
  refine ⟨?_, ?_, ?_⟩
  · intro a p r rec names c persp h
    unfold CouncilPerspective.mk? at h
    split at h
    · rename_i hcond
      cases h
      constructor
      · have hle := (Dy.leB_iff ⟨0, 0⟩ c).mp hcond.1
        rw [h0] at hle
        exact hle
      · have hle := (Dy.leB_iff c ⟨1, 0⟩).mp hcond.2
        rw [h1] at hle
        exact hle
    · exact Option.noConfusion h
  · intro a p r rec names c hout
    unfold CouncilPerspective.mk?
    rw [if_neg]
    intro hcond
    have hge := (Dy.leB_iff ⟨0, 0⟩ c).mp hcond.1
    have hle := (Dy.leB_iff c ⟨1, 0⟩).mp hcond.2
    rw [h0] at hge
    rw [h1] at hle
    rcases hout with hlt | hgt
    · linarith
    · linarith
  · intro α q asp ctx
    refine ⟨perspOf asp, analyze_eq q asp ctx, rfl, ?_, ?_⟩
    · rw [lit085_toRat]
      norm_num
    · rw [lit085_toRat]
      norm_num

/-- C8 witness: validated construction succeeds at the constant analyzer
score and fails at the out-of-range score `2.0`. -/
theorem claim_C8_witness :
    (0 ≤ Dy.toRat lit085 ∧ Dy.toRat lit085 ≤ 1) ∧
    CouncilPerspective.mk? .SEWU "x" "y" "z" [] ⟨2, 0⟩ = none :=
  ⟨claim_C8.1 .SEWU "x" "y" "z" [] lit085 ⟨.SEWU, "x", "y", "z", [], lit085⟩ rfl,
   claim_C8.2.1 .SEWU "x" "y" "z" [] ⟨2, 0⟩ (Or.inr (by norm_num [Dy.toRat]))⟩

/-- C9: the context parameter never influences the result: for every
question and any two context arguments — of any value types, including an
omitted (`none`) context, which the code replaces by the empty dict — the
two calls return identical decisions.  (The embedding is a pure function:
the Python method reads only the immutable catalog and framework
tables, modelled here as top-level constants, and mutates nothing.) -/
theorem claim_C9 {α β : Type} (question : String)
    (c1 : Option (List (String × α))) (c2 : Option (List (String × β))) :
    consult_council question c1 = consult_council question c2 :=
  (consult_eq question c1).trans (consult_eq question c2).symm

/-- C9 witness: a populated context, the empty context and the omitted
context all give the same decision. -/
theorem claim_C9_witness :
    consult_council "Should I change jobs?" (some [("mood", "anxious")]) =
      consult_council "Should I change jobs?" (none : Option (List (String × Nat))) ∧
    consult_council "Should I change jobs?" (some ([] : List (String × Unit))) =
      consult_council "Should I change jobs?" (none : Option (List (String × Unit))) :=
  ⟨claim_C9 "Should I change jobs?" (some [("mood", "anxious")]) none,
   claim_C9 "Should I change jobs?" (some []) none⟩

/-- C10: for every aspect, the analyzer output is one fixed constant,
independent of both the question and the context (and of their types); its
`principles_applied` always has exactly 2 entries, the names of the first
two — i.e. the two lowest-id — catalog principles of that aspect; and the
question influences only the `integrated_decision` of the merged decision:
any two successful consultations agree on every other field. -/
theorem claim_C10 {α β : Type} :
    (∀ (q1 q2 : String) (c1 : List (String × α)) (c2 : List (String × β))
       (asp : CouncilAspect),
       _analyze_aspect q1 asp c1 = _analyze_aspect q2 asp c2) ∧
    (∀ (γ : Type) (q : String) (asp : CouncilAspect) (ctx : List (String × γ)),
       ∃ p : CouncilPerspective,
         _analyze_aspect q asp ctx = some p ∧
         p.principles_applied.length = 2 ∧
         p.principles_applied = ((get_principles_by_aspect asp).take 2).map (·.name) ∧
         (∀ chosen ∈ (get_principles_by_aspect asp).take 2,
            ∀ other ∈ get_principles_by_aspect asp,
              other ∉ (get_principles_by_aspect asp).take 2 →
                chosen.id < other.id)) ∧
    (∀ (q1 q2 : String) (c1 : Option (List (String × α)))
       (c2 : Option (List (String × β))) (d1 d2 : CosmicDecision),
       consult_council q1 c1 = some d1 → consult_council q2 c2 = some d2 →
         d1.council_perspectives = d2.council_perspectives ∧
         d1.consensus_level = d2.consensus_level ∧
         d1.cosmic_coherence = d2.cosmic_coherence ∧
         d1.recommended_actions = d2.recommended_actions ∧
         d1.developmental_stage = d2.developmental_stage) := by
  refine ⟨?_, ?_, ?_⟩
  · intro q1 q2 c1 c2 asp
    exact (analyze_eq q1 asp c1).trans (analyze_eq q2 asp c2).symm
  · intro γ q asp ctx
    refine ⟨perspOf asp, analyze_eq q asp ctx, ?_, ?_, ?_⟩
    · cases asp <;> decide
    · cases asp <;> rfl
    · cases asp <;> decide
  · intro q1 q2 c1 c2 d1 d2 h1 h2
    rw [consult_eq] at h1 h2
    cases h1
    cases h2
    exact ⟨rfl, rfl, rfl, rfl, rfl⟩

/-- C10 witness: the analyzer agrees across two different questions and
context types, its SEWU output applies exactly the two lowest-id SEWU
principles, and two consultations with different questions agree on all
fields but the integrated decision text. -/
theorem claim_C10_witness :
    _analyze_aspect "a" .SEWU ([] : List (String × Unit)) =
      _analyze_aspect "b" .SEWU ([("k", 7)] : List (String × Nat)) ∧
    (∃ p : CouncilPerspective,
       _analyze_aspect "q" .SEWU ([] : List (String × Unit)) = some p ∧
       p.principles_applied.length = 2 ∧
       p.principles_applied = ((get_principles_by_aspect .SEWU).take 2).map (·.name) ∧
       (∀ chosen ∈ (get_principles_by_aspect .SEWU).take 2,
          ∀ other ∈ get_principles_by_aspect .SEWU,
            other ∉ (get_principles_by_aspect .SEWU).take 2 →
              chosen.id < other.id)) ∧
    ((decisionOf "a").council_perspectives = (decisionOf "b").council_perspectives ∧
     (decisionOf "a").consensus_level = (decisionOf "b").consensus_level ∧
     (decisionOf "a").cosmic_coherence = (decisionOf "b").cosmic_coherence ∧
     (decisionOf "a").recommended_actions = (decisionOf "b").recommended_actions ∧
     (decisionOf "a").developmental_stage = (decisionOf "b").developmental_stage) :=
  ⟨(claim_C10 (α := Unit) (β := Nat)).1 "a" "b" [] [("k", 7)] .SEWU,
   (claim_C10 (α := Unit) (β := Unit)).2.1 Unit "q" .SEWU [],
   (claim_C10 (α := Unit) (β := Unit)).2.2 "a" "b" none none
     (decisionOf "a") (decisionOf "b") (consult_eq "a" none) (consult_eq "b" none)⟩

end Benkhawiya
